import Mathlib

/-!
Shallow embedding of `src/eugene/core.py` (branching-process outbreak
simulators and the final-size compute engine).

Randomness is modelled by explicit oracle bundles: every call that the
Python code makes into numpy's global random stream is replaced by a read
from an indexed oracle function.  A standard-Gamma oracle is indexed by the
shape parameter of the requested distribution (so that which distribution a
call samples from is observable in the model); `np.random.gamma(a, s)` is
embedded as `s * oracle a i`, using the exact scaling identity
Gamma(a, s) = s * Gamma(a, 1), and `np.random.poisson(lam)` is embedded as
an oracle read, except that a zero rate deterministically yields 0 (the
only value in the support of Poisson(0), matching numpy).
-/

namespace Eugene

/- Batteries marks the rational-arithmetic primitives `@[irreducible]`;
restore default reducibility locally so that concrete runs of the embedded
simulators can be evaluated inside proofs. -/
attribute [local semireducible] Rat.mul Rat.add Rat.sub Rat.inv Rat.ofScientific

/-- `np.random.poisson(rate)`: rate 0 gives 0 deterministically; any other
rate returns the oracle's proposal `o` for that draw. -/
def poissonDraw (rate : ℚ) (o : ℕ) : ℕ :=
  if rate = 0 then 0 else o

/-- `sample_nbinom(n, p, size)` from core.py: `size` draws, each
`np.random.poisson(np.random.gamma(n, (1 - p) / p))`.  `gStd i` is the i-th
standard-Gamma(shape `n`) draw of this call and `pVal i` the i-th Poisson
proposal. -/
def sample_nbinom (n p : ℚ) (size : ℕ) (gStd : ℕ → ℚ) (pVal : ℕ → ℕ) : List ℕ :=
  (List.range size).map fun i => poissonDraw ((1 - p) / p * gStd i) (pVal i)

/-- `arr.min()` of a numpy array viewed as a list (0 for the empty array,
which numpy would reject; all uses are guarded by nonemptiness). -/
def listMin : List ℚ → ℚ
  | [] => 0
  | a :: r => r.foldl min a

/-- `max(iterable)` over rationals (python builtin; 0 for the empty list). -/
def listMax : List ℚ → ℚ
  | [] => 0
  | a :: r => r.foldl max a

/-- `arr.max()` of a numpy array of nonnegative integer counts. -/
def listMaxN (l : List ℕ) : ℕ := l.foldr max 0

/-- `np.cumsum` on a list of counts. -/
def cumsum : List ℕ → List ℕ
  | [] => []
  | a :: r => a :: (cumsum r).map (a + ·)

/-- Oracle bundle for one run of `simulate_outbreak`:
`nbStd shape g i` / `nbPois g i` feed the `sample_nbinom` call of
generation `g`, and `tg shape g r c` is the entry at row `r`, column `c` of
the `np.random.standard_gamma(D / gamma_shape, size=gamma_size)` matrix of
generation `g`. -/
structure UOracle where
  nbStd : ℚ → ℕ → ℕ → ℚ
  nbPois : ℕ → ℕ → ℕ
  tg : ℚ → ℕ → ℕ → ℕ → ℚ

/-- Scalar parameters of `simulate_outbreak`. -/
structure UParams where
  R0 : ℚ
  k : ℚ
  D : ℚ
  gamma_shape : ℚ
  max_time : ℚ
  days_elapsed_max : ℚ
  max_cases : ℚ

/-- Loop state of `simulate_outbreak`: the active-case time array `t`, the
running totals and the accumulated output lists, plus the generation
counter used to index the oracles. -/
structure UState where
  t : List ℚ
  cumulative_incidence : ℕ
  cases : ℕ
  incidence : List ℕ
  t_mins : List ℚ
  gen : ℕ

/-- One generation of `simulate_outbreak`, given the (possibly thinned)
secondary-case counts of this generation.  The dense `gamma_size`-shaped
matrix with its validity mask is realized by iterating rows over
`t.zip secondary` and columns over `range (secondary.max())`, keeping entry
(r, c) iff `c < secondary[r]` (unmasked) and the new absolute time is below
`max_time`; `ravel` order is row-major, as in numpy. -/
def uStepWith (O : UOracle) (P : UParams) (secondary : List ℕ) (s : UState) : UState :=
  let m := listMaxN secondary
  let kept := (s.t.zip secondary).enum.flatMap fun rc =>
    (List.range m).filterMap fun c =>
      let tv := rc.2.1 + O.tg (P.D / P.gamma_shape) s.gen rc.1 c
      if c < rc.2.2 ∧ tv < P.max_time then some tv else none
  let cases := kept.length
  { t := kept
    cumulative_incidence := s.cumulative_incidence + cases
    cases := cases
    incidence := if 0 < cases then s.incidence ++ [cases] else s.incidence
    t_mins := if 0 < cases then s.t_mins ++ [listMin kept] else s.t_mins
    gen := s.gen + 1 }

/-- One generation of `simulate_outbreak`: sample the secondary counts with
dispersion `k` and success probability `k / (k + R0)`, then do the
dense-array update. -/
def uStep (O : UOracle) (P : UParams) (s : UState) : UState :=
  uStepWith O P
    (sample_nbinom P.k (P.k / (P.k + P.R0)) s.cases (O.nbStd P.k s.gen) (O.nbPois s.gen)) s

/-- The `while` loop of `simulate_outbreak`, with explicit fuel.  The loop
guard is `(cases > 0) and (t.min() < days_elapsed_max) and
(cumulative_incidence < max_cases)`. -/
def uRunWith (P : UParams) (step : UState → UState) : ℕ → UState → UState
  | 0, s => s
  | fuel + 1, s =>
    if 0 < s.cases ∧ listMin s.t < P.days_elapsed_max ∧
        (s.cumulative_incidence : ℚ) < P.max_cases then
      uRunWith P step fuel (step s)
    else s

/-- Initial state of `simulate_outbreak`: `n` index cases at time 0. -/
def uInit (n : ℕ) : UState :=
  { t := List.replicate n 0
    cumulative_incidence := n
    cases := n
    incidence := [n]
    t_mins := [0]
    gen := 0 }

/-- `simulate_outbreak` from core.py: returns `(t_mins, incidence.cumsum())`. -/
def simulate_outbreak (O : UOracle) (R0 k : ℚ) (n : ℕ)
    (D gamma_shape max_time days_elapsed_max max_cases : ℚ) (fuel : ℕ) :
    List ℚ × List ℕ :=
  let P : UParams := ⟨R0, k, D, gamma_shape, max_time, days_elapsed_max, max_cases⟩
  let s := uRunWith P (uStep O P) fuel (uInit n)
  (s.t_mins, cumsum s.incidence)

/-- The `seed` handling of `simulate_outbreak`: `np.random.seed(seed)`
replaces the process-global random state by the state determined by the
seed alone; passing no seed leaves the global state in place.  `seedFn`
maps a seed to the oracle stream the reseeded generator produces. -/
def simulate_outbreak_seeded (seedFn : ℕ → UOracle) (globalO : UOracle)
    (seed : Option ℕ) (R0 k : ℚ) (n : ℕ)
    (D gamma_shape max_time days_elapsed_max max_cases : ℚ) (fuel : ℕ) :
    List ℚ × List ℕ :=
  simulate_outbreak (match seed with | some s => seedFn s | none => globalO)
    R0 k n D gamma_shape max_time days_elapsed_max max_cases fuel

/-- Python `int()` applied to a rational value: truncation toward zero
(`-⌊-q⌋` is the ceiling of `q`, written this way to keep the definition
kernel-computable). -/
def pyInt (q : ℚ) : ℤ :=
  if q < 0 then -⌊-q⌋ else ⌊q⌋

/-- `n_cases_home = int(cases * f_home) + 1` (core.py line 292). -/
def n_cases_home (cases : ℕ) (f_home : ℚ) : ℤ :=
  pyInt (cases * f_home) + 1

/-- `n_cases_comm = cases - n_cases_home` (core.py line 293). -/
def n_cases_comm (cases : ℕ) (f_home : ℚ) : ℤ :=
  cases - n_cases_home cases f_home

/-- `np.count_nonzero(population_vector)`: the number of indices below
`population` whose infection flag is set. -/
def countInfected (population : ℕ) (v : ℕ → Bool) : ℕ :=
  ((Finset.range population).filter fun i => v i = true).card

/-- Oracle bundle for one run of `simulate_outbreak_structured`, indexed by
the step counter: `commStd`/`commPois` and `homeStd`/`homePois` feed the
two `sample_nbinom` calls, `hhPois st i` is the i-th household-size Poisson
proposal, `choice st size` the index list drawn by
`np.random.choice(population, size, replace=False)`, and `gNew`/`gRe` are
the step's shape-indexed `np.random.standard_gamma` streams for the newly
infected and the re-exposed. -/
structure SOracle where
  commStd : ℚ → ℕ → ℕ → ℚ
  commPois : ℕ → ℕ → ℕ
  homeStd : ℚ → ℕ → ℕ → ℚ
  homePois : ℕ → ℕ → ℕ
  hhPois : ℕ → ℕ → ℕ
  choice : ℕ → ℕ → List ℕ
  gNew : ℚ → ℕ → ℕ → ℚ
  gRe : ℚ → ℕ → ℕ → ℚ

/-- Scalar parameters of `simulate_outbreak_structured`.  `gamma_shape` and
`days_elapsed_max` are part of the source signature but are never read by
the loop body. -/
structure SParams where
  R0 : ℚ
  k : ℚ
  D : ℚ
  gamma_shape : ℚ
  max_time : ℚ
  days_elapsed_max : ℚ
  max_cases : ℚ
  f_home : ℚ
  people_per_household : ℚ
  max_community_spread : ℕ
  population : ℕ

/-- Loop state of `simulate_outbreak_structured`.  `snaps` is ghost
instrumentation only: it records, in step order, the population vector at
each point where an `incidence` entry is recorded, so that trace-vs-state
claims can be stated; it influences nothing. -/
structure SState where
  population_vector : ℕ → Bool
  time_vector : ℕ → ℚ
  cumulative_incidence : ℕ
  cases : ℕ
  incidence : List ℕ
  t_mins : List ℕ
  steps : ℕ
  snaps : List (ℕ → Bool)

/-- Community secondary counts of one step, capped at
`max_community_spread`: `min_along_axis(secondary_comm, ones(cases) *
int(max_community_spread))` (the zip truncates at the shorter array, as
numba's `zip` does). -/
def sSecondaryCommMin (O : SOracle) (P : SParams) (s : SState) : List ℕ :=
  (sample_nbinom P.k (P.k / (P.k + P.R0)) (n_cases_comm s.cases P.f_home).toNat
      (O.commStd P.k s.steps) (O.commPois s.steps)).zipWith min
    (List.replicate s.cases P.max_community_spread)

/-- Household secondary counts of one step, capped at the household size
`max_along_axis(poisson(people_per_household), ones(cases))`. -/
def sSecondaryHomeMin (O : SOracle) (P : SParams) (s : SState) : List ℕ :=
  (((List.range (n_cases_home s.cases P.f_home).toNat).map fun i =>
        poissonDraw P.people_per_household (O.hhPois s.steps i)).zipWith max
      (List.replicate s.cases 1)).zipWith min
    (sample_nbinom P.k (P.k / (P.k + P.R0)) (n_cases_home s.cases P.f_home).toNat
      (O.homeStd P.k s.steps) (O.homePois s.steps))

/-- `secondary = np.sum(secondary_comm_min) + np.sum(secondary_home_min)`. -/
def sSecondary (O : SOracle) (P : SParams) (s : SState) : ℕ :=
  (sSecondaryCommMin O P s).sum + (sSecondaryHomeMin O P s).sum

/-- `new_infect_inds`: the individuals chosen uniformly without replacement
from the population. -/
def sChosen (O : SOracle) (P : SParams) (s : SState) : List ℕ :=
  O.choice s.steps (sSecondary O P s)

/-- `new_infections`: the chosen individuals whose infection flag is 0. -/
def sNew (O : SOracle) (P : SParams) (s : SState) : List ℕ :=
  (sChosen O P s).filter fun i => !(s.population_vector i)

/-- `still_infectious`: the chosen individuals who are already infected and
whose elapsed infectious time is still below `max_time`. -/
def sStill (O : SOracle) (P : SParams) (s : SState) : List ℕ :=
  (sChosen O P s).filter fun i =>
    s.population_vector i && decide (s.time_vector i < P.max_time)

/-- One step of the `simulate_outbreak_structured` loop (core.py lines
292-349).  `g1`/`g2` are the `np.random.standard_gamma(D, size=...)` draw
vectors; fancy-index updates are realized pointwise, an index in
`new_infections` (respectively `still_infectious`) receiving the draw at
its position in that list. -/
def sStep (O : SOracle) (P : SParams) (s : SState) : SState :=
  let new_infections := sNew O P s
  let still_infectious := sStill O P s
  let g1 := fun j => O.gNew P.D s.steps j
  let g2 := fun j => O.gRe P.D s.steps j
  let popNew := fun i =>
    if i ∈ new_infections then true else s.population_vector i
  let timeNew := fun i =>
    if i ∈ new_infections then
      s.time_vector i + g1 (new_infections.indexOf i)
    else if i ∈ still_infectious then
      min (s.time_vector i + g2 (still_infectious.indexOf i)) P.max_time
    else s.time_vector i
  let cum := countInfected P.population popNew
  { population_vector := popNew
    time_vector := timeNew
    cumulative_incidence := cum
    cases := if 0 < s.cases then new_infections.length else s.cases
    incidence := if 0 < s.cases then s.incidence ++ [cum] else s.incidence
    t_mins := if 0 < s.cases then s.t_mins ++ [s.steps] else s.t_mins
    steps := if 0 < s.cases then s.steps + 1 else s.steps
    snaps := if 0 < s.cases then s.snaps ++ [popNew] else s.snaps }

/-- The `while` loop of `simulate_outbreak_structured`, with explicit fuel.
The guard is `(cases > 0) and (cumulative_incidence < max_cases)`; there is
no time-horizon condition. -/
def sRun (O : SOracle) (P : SParams) : ℕ → SState → SState
  | 0, s => s
  | fuel + 1, s =>
    if 0 < s.cases ∧ (s.cumulative_incidence : ℚ) < P.max_cases then
      sRun O P fuel (sStep O P s)
    else s

/-- Initial state of `simulate_outbreak_structured`:
`population_vector[:n] = 1`, `time_vector[:n] = 0.01`, `n` index cases. -/
def sInit (n : ℕ) : SState :=
  { population_vector := fun i => decide (i < n)
    time_vector := fun i => if i < n then 1 / 100 else 0
    cumulative_incidence := n
    cases := n
    incidence := [n]
    t_mins := [0]
    steps := 0
    snaps := [fun i => decide (i < n)] }

/-- The final loop state of `simulate_outbreak_structured`. -/
def sFinal (O : SOracle) (R0 k : ℚ) (n : ℕ)
    (D gamma_shape max_time days_elapsed_max max_cases f_home
      people_per_household : ℚ) (max_community_spread population : ℕ)
    (fuel : ℕ) : SState :=
  sRun O
    ⟨R0, k, D, gamma_shape, max_time, days_elapsed_max, max_cases, f_home,
      people_per_household, max_community_spread, population⟩
    fuel (sInit n)

/-- `simulate_outbreak_structured` from core.py: returns
`(np.arange(steps + 1), incidence, time_vector, population_vector)`. -/
def simulate_outbreak_structured (O : SOracle) (R0 k : ℚ) (n : ℕ)
    (D gamma_shape max_time days_elapsed_max max_cases f_home
      people_per_household : ℚ) (max_community_spread population : ℕ)
    (fuel : ℕ) : List ℕ × List ℕ × (ℕ → ℚ) × (ℕ → Bool) :=
  let s := sFinal O R0 k n D gamma_shape max_time days_elapsed_max max_cases
    f_home people_per_household max_community_spread population fuel
  (List.range (s.steps + 1), s.incidence, s.time_vector, s.population_vector)

/-- The `seed` handling of `simulate_outbreak_structured`, exactly as in
`simulate_outbreak_seeded`. -/
def simulate_outbreak_structured_seeded (seedFn : ℕ → SOracle)
    (globalO : SOracle) (seed : Option ℕ) (R0 k : ℚ) (n : ℕ)
    (D gamma_shape max_time days_elapsed_max max_cases f_home
      people_per_household : ℚ) (max_community_spread population : ℕ)
    (fuel : ℕ) : List ℕ × List ℕ × (ℕ → ℚ) × (ℕ → Bool) :=
  simulate_outbreak_structured
    (match seed with | some s => seedFn s | none => globalO)
    R0 k n D gamma_shape max_time days_elapsed_max max_cases f_home
    people_per_household max_community_spread population fuel

/-- Modelled from the spec: the quarantine thinning step of the unstructured
simulator's optional `f_Q` parameter, which is absent from
src/eugene/core.py.  Following section 4.2 step 2 of the spec: if
`f_Q > 0`, select without replacement a `(1 - f_Q)`-fraction of the
secondary-count entries to retain and zero the rest.  `retainOrder` is the
randomly drawn retention order; the first `(1 - f_Q) * len` positions of it
are retained. -/
def quarantineThin (f_Q : ℚ) (retainOrder : List ℕ) (secondary : List ℕ) :
    List ℕ :=
  if 0 < f_Q then
    let keep := (⌊(1 - f_Q) * secondary.length⌋).toNat
    let retained := retainOrder.take keep
    secondary.enum.map fun ic => if ic.1 ∈ retained then ic.2 else 0
  else secondary

/-- Oracle bundle for the spec-modelled `f_Q` variant: the base oracles of
`simulate_outbreak` plus a per-generation retention order. -/
structure QOracle where
  base : UOracle
  retainOrder : ℕ → List ℕ

/-- Modelled from the spec: one generation of the unstructured simulator
with quarantine fraction `f_Q` — sample the secondary counts, apply the
quarantine thinning, then do the dense-array update of `uStepWith`. -/
def uStepQ (O : QOracle) (P : UParams) (f_Q : ℚ) (s : UState) : UState :=
  uStepWith O.base P
    (quarantineThin f_Q (O.retainOrder s.gen)
      (sample_nbinom P.k (P.k / (P.k + P.R0)) s.cases
        (O.base.nbStd P.k s.gen) (O.base.nbPois s.gen))) s

/-- Modelled from the spec: `simulate_outbreak` with the optional
quarantine fraction `f_Q` (absent from src/eugene/core.py); identical to
`simulate_outbreak` except that each generation's secondary counts pass
through `quarantineThin` before the dense-array update. -/
def simulate_outbreak_fQ (O : QOracle) (R0 k : ℚ) (n : ℕ)
    (D gamma_shape max_time days_elapsed_max max_cases f_Q : ℚ) (fuel : ℕ) :
    List ℚ × List ℕ :=
  let P : UParams := ⟨R0, k, D, gamma_shape, max_time, days_elapsed_max, max_cases⟩
  let s := uRunWith P (uStepQ O P f_Q) fuel (uInit n)
  (s.t_mins, cumsum s.incidence)

/-- Per-trial oracle bundle of `compute`: the three `np.random.rand()`
draws (for `D`, `gamma_shape` and `days_elapsed`, in sampling order), the
`np.random.randint(n_min, n_max)` draw, and the oracle bundle of the
structured simulation the trial runs. -/
structure TrialOracle where
  u1 : ℚ
  u2 : ℚ
  u3 : ℚ
  nDraw : ℕ
  sim : SOracle

/-- One trial of the `compute` loop body (core.py lines 194-216): draw the
nuisance parameters, transform the dispersion to
`ell = k * (f_home^2 + (1 - f_home)^2)`, run the structured simulator and
record `cum_inc[-1] / population`. -/
def computeTrial (Ot : TrialOracle) (f_home : ℚ) (max_community_spread : ℕ)
    (R0 k D_min D_max max_cases gamma_shape_min gamma_shape_max max_time : ℚ)
    (days_elapsed_min days_elapsed_max : List ℚ)
    (people_per_household : ℚ) (population : ℕ) (fuel : ℕ) : ℚ :=
  let D := D_min + (D_max - D_min) * Ot.u1
  let n := Ot.nDraw
  let gamma_shape := gamma_shape_min + (gamma_shape_max - gamma_shape_min) * Ot.u2
  let days_elapsed := listMax days_elapsed_min +
    (listMax days_elapsed_max - listMax days_elapsed_min) * Ot.u3
  let ell := k * (f_home ^ 2 + (1 - f_home) ^ 2)
  let r := simulate_outbreak_structured Ot.sim R0 ell n D gamma_shape
    max_time days_elapsed max_cases f_home people_per_household
    max_community_spread population fuel
  (r.2.1.getLastD 0 : ℚ) / population

/-- `compute` from core.py, as the 3-D final-size table it builds
(`final_size[i][j][m]` for grid point `i`, community-spread cap `j`, trial
`m`).  The trailing `np.save` is persistence to disk — an external
collaborator per the spec — so the table itself is the result here.
`Ot i j m` is the random stream consumed by that trial. -/
def compute (Ot : ℕ → ℕ → ℕ → TrialOracle) (f_home_grid : List ℚ)
    (max_community_spread_grid : List ℕ)
    (R0 k : ℚ) (trials : ℕ) (D_min D_max max_cases gamma_shape_min
      gamma_shape_max max_time : ℚ)
    (days_elapsed_min days_elapsed_max : List ℚ)
    (people_per_household : ℚ) (population : ℕ) (fuel : ℕ) :
    List (List (List ℚ)) :=
  f_home_grid.enum.map fun fi =>
    max_community_spread_grid.enum.map fun mj =>
      (List.range trials).map fun m =>
        computeTrial (Ot fi.1 mj.1 m) fi.2 mj.2 R0 k D_min D_max max_cases
          gamma_shape_min gamma_shape_max max_time days_elapsed_min
          days_elapsed_max people_per_household population fuel

/-! ### Generic lemmas about the loop combinators -/

theorem flatMap_const_nil {α β : Type} (l : List α) :
    (l.flatMap fun _ => ([] : List β)) = [] := by
  induction l with
  | nil => rfl
  | cons a r ih => simp [ih]

theorem listMaxN_eq_zero {l : List ℕ} (h : ∀ x ∈ l, x = 0) :
    listMaxN l = 0 := by
  induction l with
  | nil => rfl
  | cons a r ih =>
    have ha : a = 0 := h a (by simp)
    have hr : listMaxN r = 0 := ih fun x hx => h x (by simp [hx])
    simp [listMaxN] at hr ⊢
    exact ⟨ha, hr⟩

/-- A generation whose secondary-count array is all zeros produces an empty
next generation: the dense array has zero width, nothing is kept, and the
output lists are untouched. -/
theorem uStepWith_of_allzero (O : UOracle) (P : UParams) (s : UState)
    {sec : List ℕ} (h : ∀ x ∈ sec, x = 0) :
    uStepWith O P sec s =
      { t := [], cumulative_incidence := s.cumulative_incidence, cases := 0,
        incidence := s.incidence, t_mins := s.t_mins, gen := s.gen + 1 } := by
  have hm : listMaxN sec = 0 := listMaxN_eq_zero h
  simp [uStepWith, hm, flatMap_const_nil]

/-- With no active cases the loop guard fails and the loop exits at once. -/
theorem uRunWith_of_cases_zero (P : UParams) (step : UState → UState)
    (fuel : ℕ) (s : UState) (h : s.cases = 0) :
    uRunWith P step fuel s = s := by
  cases fuel with
  | zero => rfl
  | succ f => simp [uRunWith, h]

theorem cumsum_singleton (a : ℕ) : cumsum [a] = [a] := rfl

/-- With `R0 = 0` and `k ≠ 0` the negative-binomial success probability is
`k / (k + 0) = 1`, the Gamma-Poisson mixture rate is 0, and every sampled
secondary count is 0. -/
theorem sample_nbinom_R0_zero {k : ℚ} (hk : k ≠ 0) (size : ℕ)
    (gStd : ℕ → ℚ) (pVal : ℕ → ℕ) :
    ∀ x ∈ sample_nbinom k (k / (k + 0)) size gStd pVal, x = 0 := by
  intro x hx
  have hp : k / (k + 0) = 1 := by rw [add_zero, div_self hk]
  simp only [sample_nbinom, hp, List.mem_map, List.mem_range] at hx
  obtain ⟨i, _, hxi⟩ := hx
  rw [← hxi]
  norm_num [poissonDraw]

/-- C6: with `R0 = 0`, `k > 0` and `n = 5` index cases, `simulate_outbreak`
terminates after the first generation and returns the single-entry
cumulative-incidence trace `[5]` (at time list `[0]`), because the
secondary-case sampler with success probability `k / (k + 0) = 1` produces
only zero counts. -/
theorem simulate_outbreak_R0_zero_five (O : UOracle)
    (k D gamma_shape max_time days_elapsed_max max_cases : ℚ) (fuel : ℕ)
    (hk : 0 < k) :
    simulate_outbreak O 0 k 5 D gamma_shape max_time days_elapsed_max
      max_cases fuel = ([0], [5]) := by
  have hz := sample_nbinom_R0_zero (k := k) (ne_of_gt hk)
  cases fuel with
  | zero =>
    simp [simulate_outbreak, uRunWith, uInit, cumsum_singleton]
  | succ f =>
    simp only [simulate_outbreak]
    rw [uRunWith]
    split
    · rw [show uStep O ⟨0, k, D, gamma_shape, max_time, days_elapsed_max,
            max_cases⟩ (uInit 5) = _ from
          uStepWith_of_allzero _ _ _ (hz _ _ _),
        uRunWith_of_cases_zero _ _ _ _ rfl]
      simp [uInit, cumsum_singleton]
    · simp [uInit, cumsum_singleton]

/-- A concrete all-zero oracle bundle, used to instantiate theorems with
hypotheses at concrete inputs. -/
def OZero : UOracle :=
  { nbStd := fun _ _ _ => 0, nbPois := fun _ _ => 0, tg := fun _ _ _ _ => 0 }

/-- Witness for `simulate_outbreak_R0_zero_five` at `k = 1`. -/
theorem simulate_outbreak_R0_zero_five_witness :
    (0 : ℚ) < 1 ∧
      simulate_outbreak OZero 0 1 5 2 3 50 100 1000 7 = ([0], [5]) :=
  ⟨by norm_num,
    simulate_outbreak_R0_zero_five OZero 1 2 3 50 100 1000 7 (by norm_num)⟩

/-- Full quarantine (`f_Q = 1`) retains a `0`-fraction of the secondary
counts, so every count is zeroed. -/
theorem quarantineThin_one_allzero (ro sec : List ℕ) :
    ∀ x ∈ quarantineThin 1 ro sec, x = 0 := by
  intro x hx
  have h0 : (1 : ℚ) - 1 = 0 := by norm_num
  simp only [quarantineThin, h0, zero_mul, Int.floor_zero, Int.toNat_zero,
    List.take_zero, if_pos (by norm_num : (0 : ℚ) < 1), List.mem_map] at hx
  obtain ⟨ic, _, hxi⟩ := hx
  simp only [List.not_mem_nil, if_false] at hxi
  exact hxi.symm

/-- C9: setting `f_Q = 1` in the (spec-modelled) unstructured model with
quarantine — all primary cases perfectly quarantined, their entire
secondary-case counts suppressed — terminates the simulation after the
first generation with cumulative-incidence trace exactly `[n]`. -/
theorem simulate_outbreak_fQ_full_quarantine (O : QOracle) (R0 k : ℚ)
    (n : ℕ) (D gamma_shape max_time days_elapsed_max max_cases : ℚ)
    (fuel : ℕ) :
    simulate_outbreak_fQ O R0 k n D gamma_shape max_time days_elapsed_max
      max_cases 1 fuel = ([0], [n]) := by
  cases fuel with
  | zero =>
    simp [simulate_outbreak_fQ, uRunWith, uInit, cumsum_singleton]
  | succ f =>
    simp only [simulate_outbreak_fQ]
    rw [uRunWith]
    split
    · rw [show uStepQ O ⟨R0, k, D, gamma_shape, max_time, days_elapsed_max,
            max_cases⟩ 1 (uInit n) = _ from
          uStepWith_of_allzero _ _ _ (quarantineThin_one_allzero _ _),
        uRunWith_of_cases_zero _ _ _ _ rfl]
      simp [uInit, cumsum_singleton]
    · simp [uInit, cumsum_singleton]

/-- C8: a generation in which every sampled secondary-case count is zero is
a normal early-termination path of `simulate_outbreak`: the step is well
defined (the zero-width dense array keeps nothing), the new active-case
count is zero, the output lists are unchanged, and the loop exits at the
next guard check no matter how much fuel remains. -/
theorem simulate_outbreak_allzero_generation (O : UOracle) (P : UParams)
    (s : UState)
    (hc : 0 < s.cases ∧ listMin s.t < P.days_elapsed_max ∧
      (s.cumulative_incidence : ℚ) < P.max_cases)
    (hz : ∀ x ∈ sample_nbinom P.k (P.k / (P.k + P.R0)) s.cases
      (O.nbStd P.k s.gen) (O.nbPois s.gen), x = 0) :
    (uStep O P s).cases = 0 ∧ (uStep O P s).t = [] ∧
      (uStep O P s).incidence = s.incidence ∧
      (uStep O P s).t_mins = s.t_mins ∧
      ∀ fuel, uRunWith P (uStep O P) (fuel + 1) s = uStep O P s := by
  have h1 := uStepWith_of_allzero O P s hz
  have h0 : (uStep O P s).cases = 0 := by rw [show uStep O P s = _ from h1]
  refine ⟨h0, by rw [show uStep O P s = _ from h1],
    by rw [show uStep O P s = _ from h1],
    by rw [show uStep O P s = _ from h1], ?_⟩
  intro fuel
  rw [uRunWith, if_pos hc, uRunWith_of_cases_zero _ _ _ _ h0]

/-- Witness for `simulate_outbreak_allzero_generation`: two index cases,
`R0 = 0`, `k = 1`. -/
theorem simulate_outbreak_allzero_generation_witness :
    ((0 < (uInit 2).cases ∧
        listMin (uInit 2).t < (100 : ℚ) ∧
        ((uInit 2).cumulative_incidence : ℚ) < 50) ∧
      ∀ x ∈ sample_nbinom 1 ((1 : ℚ) / (1 + 0)) (uInit 2).cases
        (OZero.nbStd 1 (uInit 2).gen) (OZero.nbPois (uInit 2).gen), x = 0) ∧
      ((uStep OZero ⟨0, 1, 1, 1, 10, 100, 50⟩ (uInit 2)).cases = 0 ∧
        (uStep OZero ⟨0, 1, 1, 1, 10, 100, 50⟩ (uInit 2)).t = [] ∧
        (uStep OZero ⟨0, 1, 1, 1, 10, 100, 50⟩ (uInit 2)).incidence =
          (uInit 2).incidence ∧
        (uStep OZero ⟨0, 1, 1, 1, 10, 100, 50⟩ (uInit 2)).t_mins =
          (uInit 2).t_mins ∧
        ∀ fuel, uRunWith ⟨0, 1, 1, 1, 10, 100, 50⟩
          (uStep OZero ⟨0, 1, 1, 1, 10, 100, 50⟩) (fuel + 1) (uInit 2) =
          uStep OZero ⟨0, 1, 1, 1, 10, 100, 50⟩ (uInit 2)) :=
  ⟨⟨by decide,
      sample_nbinom_R0_zero (by norm_num) _ _ _⟩,
    simulate_outbreak_allzero_generation OZero ⟨0, 1, 1, 1, 10, 100, 50⟩
      (uInit 2) (by decide)
      (sample_nbinom_R0_zero (by norm_num) _ _ _)⟩

/-- C7: with an explicit seed, both simulators are exactly reproducible:
the seed overwrites the incoming global random state, so two runs with the
same arguments and the same seed — whatever the prior global state of each
— return identical traces, and for the structured variant identical final
population-status and elapsed-time vectors. -/
theorem simulate_outbreak_seeded_reproducible (seedFnU : ℕ → UOracle)
    (gU1 gU2 : UOracle) (seedFnS : ℕ → SOracle) (gS1 gS2 : SOracle)
    (seed : ℕ) (R0 k : ℚ) (n : ℕ)
    (D gamma_shape max_time days_elapsed_max max_cases f_home
      people_per_household : ℚ) (max_community_spread population fuel : ℕ) :
    simulate_outbreak_seeded seedFnU gU1 (some seed) R0 k n D gamma_shape
        max_time days_elapsed_max max_cases fuel =
      simulate_outbreak_seeded seedFnU gU2 (some seed) R0 k n D gamma_shape
        max_time days_elapsed_max max_cases fuel ∧
    simulate_outbreak_structured_seeded seedFnS gS1 (some seed) R0 k n D
        gamma_shape max_time days_elapsed_max max_cases f_home
        people_per_household max_community_spread population fuel =
      simulate_outbreak_structured_seeded seedFnS gS2 (some seed) R0 k n D
        gamma_shape max_time days_elapsed_max max_cases f_home
        people_per_household max_community_spread population fuel :=
  ⟨rfl, rfl⟩

/-- The structured loop never reads `days_elapsed_max`: replacing it in the
parameter record changes nothing about the run. -/
theorem sRun_days_elapsed_irrelevant (O : SOracle) (P : SParams) (d2 : ℚ)
    (fuel : ℕ) (s : SState) :
    sRun O P fuel s = sRun O { P with days_elapsed_max := d2 } fuel s := by
  induction fuel generalizing s with
  | zero => rfl
  | succ f ih =>
    rw [sRun, sRun]
    by_cases hc : 0 < s.cases ∧ (s.cumulative_incidence : ℚ) < P.max_cases
    · rw [if_pos hc, if_pos (show _ from hc),
        show sStep O { P with days_elapsed_max := d2 } s = sStep O P s from rfl]
      exact ih _
    · rw [if_neg hc, if_neg (show ¬_ from hc)]

/-- C10: the `days_elapsed_max` argument of `simulate_outbreak_structured`
has no effect: for any two values, all other arguments equal, the simulator
returns identical traces and identical final population-status and
elapsed-time vectors (the structured loop has no time-horizon exit). -/
theorem simulate_outbreak_structured_days_elapsed_max_unused (O : SOracle)
    (R0 k : ℚ) (n : ℕ)
    (D gamma_shape max_time d1 d2 max_cases f_home people_per_household : ℚ)
    (max_community_spread population fuel : ℕ) :
    simulate_outbreak_structured O R0 k n D gamma_shape max_time d1
        max_cases f_home people_per_household max_community_spread
        population fuel =
      simulate_outbreak_structured O R0 k n D gamma_shape max_time d2
        max_cases f_home people_per_household max_community_spread
        population fuel := by
  simp only [simulate_outbreak_structured, sFinal]
  rw [show (⟨R0, k, D, gamma_shape, max_time, d2, max_cases, f_home,
        people_per_household, max_community_spread, population⟩ : SParams) =
      { (⟨R0, k, D, gamma_shape, max_time, d1, max_cases, f_home,
          people_per_household, max_community_spread, population⟩ : SParams)
        with days_elapsed_max := d2 } from rfl,
    ← sRun_days_elapsed_irrelevant]

/-- The seeded population vector has exactly `min n population` set flags
(`population_vector[:n] = 1` clamps at the array length). -/
theorem countInfected_init (population n : ℕ) :
    countInfected population (fun i => decide (i < n)) = min n population := by
  unfold countInfected
  rw [show ((Finset.range population).filter
        fun i => (decide (i < n)) = true) = Finset.range (min n population) by
    ext i
    simp only [Finset.mem_filter, Finset.mem_range, decide_eq_true_eq]
    omega]
  exact Finset.card_range _

/-- Each structured step appends to `incidence` exactly the recomputed
infected-flag count of the updated population vector (which is what the
ghost snapshot records). -/
theorem sStep_incidence_snaps (O : SOracle) (P : SParams) (s : SState)
    (h : s.incidence = s.snaps.map (countInfected P.population)) :
    (sStep O P s).incidence =
      (sStep O P s).snaps.map (countInfected P.population) := by
  simp only [sStep]
  by_cases hc : 0 < s.cases
  · simp [hc, h]
  · simp [hc, h]

theorem sRun_incidence_snaps (O : SOracle) (P : SParams) (fuel : ℕ) :
    ∀ s : SState, s.incidence = s.snaps.map (countInfected P.population) →
      (sRun O P fuel s).incidence =
        (sRun O P fuel s).snaps.map (countInfected P.population) := by
  induction fuel with
  | zero => exact fun s h => h
  | succ f ih =>
    intro s h
    rw [sRun]
    split
    · exact ih _ (sStep_incidence_snaps O P s h)
    · exact h

theorem head?_append_left {α : Type} (l m : List α) (h : l ≠ []) :
    (l ++ m).head? = l.head? := by
  cases l with
  | nil => exact absurd rfl h
  | cons a r => rfl

theorem sRun_incidence_head (O : SOracle) (P : SParams) (fuel : ℕ) :
    ∀ s : SState, s.incidence ≠ [] →
      (sRun O P fuel s).incidence.head? = s.incidence.head? ∧
        (sRun O P fuel s).incidence ≠ [] := by
  induction fuel with
  | zero => exact fun s h => ⟨rfl, h⟩
  | succ f ih =>
    intro s h
    rw [sRun]
    split
    · have hne : (sStep O P s).incidence ≠ [] := by
        by_cases hc : 0 < s.cases
        · simp [sStep, hc]
        · simp [sStep, hc, h]
      have hhd : (sStep O P s).incidence.head? = s.incidence.head? := by
        by_cases hc : 0 < s.cases
        · show (if 0 < s.cases then s.incidence ++
              [countInfected P.population _] else s.incidence).head? = _
          rw [if_pos hc]
          exact head?_append_left _ _ h
        · show (if 0 < s.cases then s.incidence ++
              [countInfected P.population _] else s.incidence).head? = _
          rw [if_neg hc]
      obtain ⟨h1, h2⟩ := ih _ hne
      exact ⟨h1.trans hhd, h2⟩
    · exact ⟨rfl, h⟩

/-- C2: at every step of `simulate_outbreak_structured` (given a valid
seeding `n ≤ population`) the recorded cumulative-incidence value equals
the number of set flags in the population infection-status vector at that
step — the returned incidence list is exactly the flag counts of the
recorded population-vector snapshots — and the initial entry equals the
seeded index-case count `n`. -/
theorem simulate_outbreak_structured_incidence_is_flag_count (O : SOracle)
    (R0 k : ℚ) (n : ℕ)
    (D gamma_shape max_time days_elapsed_max max_cases f_home
      people_per_household : ℚ) (max_community_spread population fuel : ℕ)
    (hn : n ≤ population) :
    (simulate_outbreak_structured O R0 k n D gamma_shape max_time
        days_elapsed_max max_cases f_home people_per_household
        max_community_spread population fuel).2.1 =
      (sFinal O R0 k n D gamma_shape max_time days_elapsed_max max_cases
        f_home people_per_household max_community_spread population
        fuel).snaps.map (countInfected population) ∧
    (simulate_outbreak_structured O R0 k n D gamma_shape max_time
        days_elapsed_max max_cases f_home people_per_household
        max_community_spread population fuel).2.1.head? = some n := by
  have h0 : (sInit n).incidence =
      (sInit n).snaps.map (countInfected population) := by
    simp [sInit, countInfected_init, Nat.min_eq_left hn]
  constructor
  · exact sRun_incidence_snaps O _ fuel (sInit n) h0
  · have hh := sRun_incidence_head O
      ⟨R0, k, D, gamma_shape, max_time, days_elapsed_max, max_cases, f_home,
        people_per_household, max_community_spread, population⟩
      fuel (sInit n) (by simp [sInit])
    exact hh.1

/-- A concrete all-zero structured oracle bundle for witnesses. -/
def SOZero : SOracle :=
  { commStd := fun _ _ _ => 0, commPois := fun _ _ => 0,
    homeStd := fun _ _ _ => 0, homePois := fun _ _ => 0,
    hhPois := fun _ _ => 0, choice := fun _ _ => [],
    gNew := fun _ _ _ => 0, gRe := fun _ _ _ => 0 }

/-- Witness for `simulate_outbreak_structured_incidence_is_flag_count`:
one index case in a population of four. -/
theorem simulate_outbreak_structured_incidence_is_flag_count_witness :
    1 ≤ 4 ∧
      ((simulate_outbreak_structured SOZero 1 1 1 2 1 10 100 100 0 3 7 4
          10).2.1 =
        (sFinal SOZero 1 1 1 2 1 10 100 100 0 3 7 4 10).snaps.map
          (countInfected 4) ∧
      (simulate_outbreak_structured SOZero 1 1 1 2 1 10 100 100 0 3 7 4
          10).2.1.head? = some 1) :=
  ⟨by norm_num,
    simulate_outbreak_structured_incidence_is_flag_count SOZero 1 1 1 2 1 10
      100 100 0 3 7 4 10 (by norm_num)⟩

/-- C4: at every step with `cases > 0` active cases, the home/community
split of `simulate_outbreak_structured` computes
`n_cases_home = floor(cases * f_home) + 1` (python `int()` truncation
coincides with the floor for the nonnegative product) and
`n_cases_comm = cases - n_cases_home`, so there is always at least one
home-route case, even when `f_home = 0`. -/
theorem n_cases_home_comm_split (cases : ℕ) (f_home : ℚ)
    (_hc : 0 < cases) (hf : 0 ≤ f_home) :
    n_cases_home cases f_home = ⌊(cases : ℚ) * f_home⌋ + 1 ∧
    n_cases_comm cases f_home = cases - n_cases_home cases f_home ∧
    1 ≤ n_cases_home cases f_home := by
  have hq : 0 ≤ (cases : ℚ) * f_home := mul_nonneg (by positivity) hf
  have hp : pyInt ((cases : ℚ) * f_home) = ⌊(cases : ℚ) * f_home⌋ := by
    unfold pyInt
    rw [if_neg (not_lt.mpr hq)]
  refine ⟨by unfold n_cases_home; rw [hp], rfl, ?_⟩
  unfold n_cases_home
  rw [hp]
  have hfl : (0 : ℤ) ≤ ⌊(cases : ℚ) * f_home⌋ := Int.floor_nonneg.mpr hq
  omega

/-- Witness for `n_cases_home_comm_split` at `cases = 3`, `f_home = 0`. -/
theorem n_cases_home_comm_split_witness :
    ((0 : ℕ) < 3 ∧ (0 : ℚ) ≤ 0) ∧
      (n_cases_home 3 0 = ⌊(3 : ℚ) * 0⌋ + 1 ∧
        n_cases_comm 3 0 = 3 - n_cases_home 3 0 ∧
        1 ≤ n_cases_home 3 0) :=
  ⟨⟨by norm_num, le_refl 0⟩,
    n_cases_home_comm_split 3 0 (by norm_num) (le_refl 0)⟩

/-- C3 (amended): in each step of `simulate_outbreak_structured`, one
standard-Gamma increment with shape `D` (scale 1) is drawn per individual
in each partition; a newly infected individual's elapsed time is set to its
increment (its prior elapsed time being zero) and its status flag is
flipped to infected, while a re-exposed individual's elapsed time is
increased by its increment and saturated at `max_time` (never exceeding
it). -/
theorem sStep_gamma_updates (O : SOracle) (P : SParams) (s : SState)
    (hz : ∀ i, s.population_vector i = false → s.time_vector i = 0) :
    (∀ i ∈ sNew O P s,
        (sStep O P s).population_vector i = true ∧
        (sStep O P s).time_vector i =
          O.gNew P.D s.steps ((sNew O P s).indexOf i)) ∧
    (∀ i ∈ sStill O P s,
        (sStep O P s).time_vector i =
          min (s.time_vector i +
            O.gRe P.D s.steps ((sStill O P s).indexOf i)) P.max_time ∧
        (sStep O P s).time_vector i ≤ P.max_time) := by
  constructor
  · intro i hi
    have hfalse : s.population_vector i = false := by
      have hm := (List.mem_filter.mp hi).2
      simpa using hm
    refine ⟨?_, ?_⟩
    · show (if i ∈ sNew O P s then true else s.population_vector i) = true
      rw [if_pos hi]
    · show (if i ∈ sNew O P s then
            s.time_vector i + O.gNew P.D s.steps ((sNew O P s).indexOf i)
          else if i ∈ sStill O P s then
            min (s.time_vector i +
              O.gRe P.D s.steps ((sStill O P s).indexOf i)) P.max_time
          else s.time_vector i) = _
      rw [if_pos hi, hz i hfalse, zero_add]
  · intro i hi
    have htrue : s.population_vector i = true := by
      have hm := (List.mem_filter.mp hi).2
      exact (Bool.and_eq_true_iff.mp hm).1
    have hnot : i ∉ sNew O P s := by
      intro hmem
      have hm := (List.mem_filter.mp hmem).2
      simp [htrue] at hm
    have hval : (sStep O P s).time_vector i =
        min (s.time_vector i +
          O.gRe P.D s.steps ((sStill O P s).indexOf i)) P.max_time := by
      show (if i ∈ sNew O P s then
            s.time_vector i + O.gNew P.D s.steps ((sNew O P s).indexOf i)
          else if i ∈ sStill O P s then
            min (s.time_vector i +
              O.gRe P.D s.steps ((sStill O P s).indexOf i)) P.max_time
          else s.time_vector i) = _
      rw [if_neg hnot, if_pos hi]
    exact ⟨hval, by rw [hval]; exact min_le_right _ _⟩

/-- Witness for `sStep_gamma_updates` on the freshly seeded state. -/
theorem sStep_gamma_updates_witness :
    (∀ i, (sInit 1).population_vector i = false →
        (sInit 1).time_vector i = 0) ∧
      ((∀ i ∈ sNew SOZero ⟨1, 1, 2, 1, 10, 100, 100, 0, 3, 7, 2⟩ (sInit 1),
          (sStep SOZero ⟨1, 1, 2, 1, 10, 100, 100, 0, 3, 7, 2⟩
            (sInit 1)).population_vector i = true ∧
          (sStep SOZero ⟨1, 1, 2, 1, 10, 100, 100, 0, 3, 7, 2⟩
            (sInit 1)).time_vector i =
            SOZero.gNew 2 (sInit 1).steps
              ((sNew SOZero ⟨1, 1, 2, 1, 10, 100, 100, 0, 3, 7, 2⟩
                (sInit 1)).indexOf i)) ∧
        (∀ i ∈ sStill SOZero ⟨1, 1, 2, 1, 10, 100, 100, 0, 3, 7, 2⟩ (sInit 1),
          (sStep SOZero ⟨1, 1, 2, 1, 10, 100, 100, 0, 3, 7, 2⟩
            (sInit 1)).time_vector i =
            min ((sInit 1).time_vector i +
              SOZero.gRe 2 (sInit 1).steps
                ((sStill SOZero ⟨1, 1, 2, 1, 10, 100, 100, 0, 3, 7, 2⟩
                  (sInit 1)).indexOf i)) 10 ∧
          (sStep SOZero ⟨1, 1, 2, 1, 10, 100, 100, 0, 3, 7, 2⟩
            (sInit 1)).time_vector i ≤ 10)) := by
  have hz : ∀ i, (sInit 1).population_vector i = false →
      (sInit 1).time_vector i = 0 := by
    intro i hi
    simp only [sInit, decide_eq_false_iff_not] at hi
    simp only [sInit, if_neg hi]
  exact ⟨hz, sStep_gamma_updates SOZero ⟨1, 1, 2, 1, 10, 100, 100, 0, 3, 7, 2⟩
    (sInit 1) hz⟩

/-- Following the spec's words for comparison with `sStep`: "Draw one
Gamma(shape=1, scale=D) increment per individual in each partition" — a
Gamma(1, D) draw is `D` times a standard-Gamma(shape 1) draw, so this step
differs from `sStep` only in using `D * gamma(1)` where the code uses
`np.random.standard_gamma(D)` (a shape-`D`, scale-1 draw). -/
def sStepSpecShapeOneGamma (O : SOracle) (P : SParams) (s : SState) : SState :=
  let new_infections := sNew O P s
  let still_infectious := sStill O P s
  let g1 := fun j => P.D * O.gNew 1 s.steps j
  let g2 := fun j => P.D * O.gRe 1 s.steps j
  let popNew := fun i =>
    if i ∈ new_infections then true else s.population_vector i
  let timeNew := fun i =>
    if i ∈ new_infections then
      s.time_vector i + g1 (new_infections.indexOf i)
    else if i ∈ still_infectious then
      min (s.time_vector i + g2 (still_infectious.indexOf i)) P.max_time
    else s.time_vector i
  let cum := countInfected P.population popNew
  { population_vector := popNew
    time_vector := timeNew
    cumulative_incidence := cum
    cases := if 0 < s.cases then new_infections.length else s.cases
    incidence := if 0 < s.cases then s.incidence ++ [cum] else s.incidence
    t_mins := if 0 < s.cases then s.t_mins ++ [s.steps] else s.t_mins
    steps := if 0 < s.cases then s.steps + 1 else s.steps
    snaps := if 0 < s.cases then s.snaps ++ [popNew] else s.snaps }

/-- A concrete structured oracle distinguishing the shape-`D` standard
Gamma stream the code reads from the shape-1 stream the spec describes. -/
def SO3 : SOracle :=
  { commStd := fun _ _ _ => 1, commPois := fun _ _ => 1,
    homeStd := fun _ _ _ => 1, homePois := fun _ _ => 1,
    hhPois := fun _ _ => 4,
    choice := fun _ c => (List.range c).map (fun x => x + 1),
    gNew := fun shape _ _ => if shape = 2 then 5 else 3,
    gRe := fun shape _ _ => if shape = 2 then 5 else 3 }

/-- C3 counterexample: with `D = 2` and an oracle whose standard-Gamma
stream yields 5 at shape 2 and 3 at shape 1, the code's step sets the newly
infected individual's elapsed time to 5 (the `standard_gamma(D)` draw),
while the claimed Gamma(shape=1, scale=D) increment would set it to
`2 * 3 = 6` — the claim's distribution parameters do not match the code. -/
theorem sStep_gamma_shape_counterexample :
    (sStep SO3 ⟨1, 1, 2, 1, 10, 100, 100, 0, 3, 7, 2⟩
        (sInit 1)).time_vector 1 = 5 ∧
    (sStepSpecShapeOneGamma SO3 ⟨1, 1, 2, 1, 10, 100, 100, 0, 3, 7, 2⟩
        (sInit 1)).time_vector 1 = 6 ∧
    ¬ ((sStep SO3 ⟨1, 1, 2, 1, 10, 100, 100, 0, 3, 7, 2⟩
          (sInit 1)).time_vector 1 =
        (sStepSpecShapeOneGamma SO3 ⟨1, 1, 2, 1, 10, 100, 100, 0, 3, 7, 2⟩
          (sInit 1)).time_vector 1) := by
  decide

theorem cumsum_eq_nil_iff {l : List ℕ} : cumsum l = [] ↔ l = [] := by
  cases l <;> simp [cumsum]

theorem cumsum_concat (l : List ℕ) (c : ℕ) :
    cumsum (l ++ [c]) = cumsum l ++ [l.sum + c] := by
  induction l with
  | nil => simp [cumsum]
  | cons a r ih =>
    show a :: (cumsum (r ++ [c])).map (a + ·) =
      (a :: (cumsum r).map (a + ·)) ++ [(a :: r).sum + c]
    rw [ih, List.map_append]
    simp [List.cons_append, Nat.add_assoc]

/-- The running cumulative sums are non-decreasing. -/
theorem chain'_cumsum (l : List ℕ) : List.Chain' (· ≤ ·) (cumsum l) := by
  induction l with
  | nil => simp [cumsum]
  | cons a r ih =>
    rw [cumsum, List.chain'_cons']
    constructor
    · intro y hy
      rw [List.head?_map] at hy
      obtain ⟨x, _, rfl⟩ := Option.map_eq_some'.mp hy
      exact Nat.le_add_right a x
    · rw [List.chain'_map]
      exact List.Chain'.imp (fun x y hxy => Nat.add_le_add_left hxy a) ih

/-- Every running cumulative sum is either a non-final one or the total. -/
theorem mem_cumsum_dropLast_or_sum (l : List ℕ) :
    ∀ v ∈ cumsum l, v ∈ (cumsum l).dropLast ∨ v = l.sum := by
  induction l with
  | nil => intro v hv; simp [cumsum] at hv
  | cons a r ih =>
    intro v hv
    rw [cumsum] at hv ⊢
    rcases List.mem_cons.mp hv with h1 | h2
    · cases hr : cumsum r with
      | nil =>
        have hrnil : r = [] := cumsum_eq_nil_iff.mp hr
        subst hrnil
        right
        simp [h1]
      | cons b rb =>
        left
        rw [List.map_cons]
        exact h1 ▸ List.mem_cons_self a _
    · obtain ⟨w, hw, rfl⟩ := List.mem_map.mp h2
      rcases ih w hw with hd | hs
      · left
        cases hr : cumsum r with
        | nil => rw [hr] at hw; simp at hw
        | cons b rb =>
          rw [hr] at hd
          have hmm : a + w ∈ (List.map (a + ·) (b :: rb)).dropLast := by
            rw [← List.map_dropLast]
            exact List.mem_map.mpr ⟨w, hd, rfl⟩
          rw [List.map_cons] at hmm ⊢
          exact List.mem_cons_of_mem a hmm
      · right
        rw [hs, List.sum_cons]

/-- The invariant that the loop of `simulate_outbreak` maintains: the
running total matches the recorded generation sizes, and every non-final
running cumulative sum was checked against `max_cases` by the loop guard
before the next generation ran. -/
def uTraceInv (mc : ℚ) (s : UState) : Prop :=
  s.cumulative_incidence = s.incidence.sum ∧ s.incidence ≠ [] ∧
    ∀ v ∈ (cumsum s.incidence).dropLast, (v : ℚ) < mc

theorem uTraceInv_push (mc : ℚ) (inc : List ℕ) (cum : ℕ) (c : ℕ)
    (h1 : cum = inc.sum) (h2 : inc ≠ [])
    (h3 : ∀ v ∈ (cumsum inc).dropLast, (v : ℚ) < mc)
    (hcum : (cum : ℚ) < mc) :
    cum + c = (if 0 < c then inc ++ [c] else inc).sum ∧
    (if 0 < c then inc ++ [c] else inc) ≠ [] ∧
    ∀ v ∈ (cumsum (if 0 < c then inc ++ [c] else inc)).dropLast,
      (v : ℚ) < mc := by
  by_cases hc : 0 < c
  · simp only [if_pos hc]
    refine ⟨by simp [h1], by simp, ?_⟩
    rw [cumsum_concat, List.dropLast_concat]
    intro v hv
    rcases mem_cumsum_dropLast_or_sum inc v hv with hd | hs
    · exact h3 v hd
    · rw [hs, ← h1]
      exact hcum
  · simp only [if_neg hc]
    have hc0 : c = 0 := by omega
    exact ⟨by simp [h1, hc0], h2, h3⟩

theorem uStepWith_traceInv (O : UOracle) (P : UParams) (sec : List ℕ)
    (s : UState) (hcum : (s.cumulative_incidence : ℚ) < P.max_cases)
    (h : uTraceInv P.max_cases s) :
    uTraceInv P.max_cases (uStepWith O P sec s) := by
  obtain ⟨h1, h2, h3⟩ := h
  exact uTraceInv_push P.max_cases s.incidence s.cumulative_incidence _
    h1 h2 h3 hcum

theorem uRunWith_traceInv (P : UParams) (step : UState → UState)
    (hstep : ∀ s, (s.cumulative_incidence : ℚ) < P.max_cases →
      uTraceInv P.max_cases s → uTraceInv P.max_cases (step s)) :
    ∀ fuel s, uTraceInv P.max_cases s →
      uTraceInv P.max_cases (uRunWith P step fuel s) := by
  intro fuel
  induction fuel with
  | zero => exact fun s h => h
  | succ f ih =>
    intro s h
    rw [uRunWith]
    split
    · next hcond => exact ih _ (hstep s hcond.2.2 h)
    · exact h

/-- C1 (amended): the cumulative-incidence trace returned by
`simulate_outbreak` is non-decreasing, and every value in it except
possibly the last is strictly below `max_cases`; the final value may
exceed `max_cases`, because the cap is checked before a generation is run
and the generation's new cases are added afterwards. -/
theorem simulate_outbreak_trace_monotone_capped (O : UOracle) (R0 k : ℚ)
    (n : ℕ) (D gamma_shape max_time days_elapsed_max max_cases : ℚ)
    (fuel : ℕ) :
    List.Chain' (· ≤ ·) (simulate_outbreak O R0 k n D gamma_shape max_time
      days_elapsed_max max_cases fuel).2 ∧
    ∀ v ∈ (simulate_outbreak O R0 k n D gamma_shape max_time
      days_elapsed_max max_cases fuel).2.dropLast, (v : ℚ) < max_cases := by
  have hinit : uTraceInv max_cases (uInit n) := by
    refine ⟨by simp [uInit], by simp [uInit], ?_⟩
    intro v hv
    simp [uInit, cumsum] at hv
  have hinv := uRunWith_traceInv
    ⟨R0, k, D, gamma_shape, max_time, days_elapsed_max, max_cases⟩
    (uStep O ⟨R0, k, D, gamma_shape, max_time, days_elapsed_max, max_cases⟩)
    (fun s hcum h => uStepWith_traceInv O _ _ s hcum h) fuel (uInit n) hinit
  exact ⟨chain'_cumsum _, hinv.2.2⟩

/-- A concrete oracle making every active case produce ten secondary cases
with unit generation intervals. -/
def Oc1 : UOracle :=
  { nbStd := fun _ _ _ => 1, nbPois := fun _ _ => 10, tg := fun _ _ _ _ => 1 }

/-- C1 counterexample: with one index case, `max_cases = 2` and ten
secondary cases sampled in the first generation, the returned trace is
`[1, 11]` — its final value 11 exceeds `max_cases = 2`, refuting the claim
that every trace value is at most `max_cases`. -/
theorem simulate_outbreak_max_cases_counterexample :
    (simulate_outbreak Oc1 1 1 1 1 1 100 100 2 5).2 = [1, 11] ∧
    ¬ ∀ v ∈ (simulate_outbreak Oc1 1 1 1 1 1 100 100 2 5).2,
        (v : ℚ) ≤ 2 := by
  decide

/-- C5: each trial of `compute` does not pass the grid cell's dispersion
`k` to the structured simulator; entry `(i, j, m)` of the final-size table
is the final cumulative incidence (divided by `population`) of a structured
run whose dispersion argument is the transformed
`ell = k * (f_home^2 + (1 - f_home)^2)` for the current `f_home` grid
value. -/
theorem compute_uses_transformed_dispersion (Ot : ℕ → ℕ → ℕ → TrialOracle)
    (f_home_grid : List ℚ) (max_community_spread_grid : List ℕ)
    (R0 k : ℚ) (trials : ℕ)
    (D_min D_max max_cases gamma_shape_min gamma_shape_max max_time : ℚ)
    (days_elapsed_min days_elapsed_max : List ℚ)
    (people_per_household : ℚ) (population fuel : ℕ) (i j m : ℕ)
    (hi : i < f_home_grid.length) (hj : j < max_community_spread_grid.length)
    (hm : m < trials) :
    ((compute Ot f_home_grid max_community_spread_grid R0 k trials D_min
        D_max max_cases gamma_shape_min gamma_shape_max max_time
        days_elapsed_min days_elapsed_max people_per_household population
        fuel)[i]?.bind fun a => a[j]?.bind fun b => b[m]?) =
      some (((simulate_outbreak_structured (Ot i j m).sim R0
          (k * (f_home_grid.get ⟨i, hi⟩ ^ 2 +
            (1 - f_home_grid.get ⟨i, hi⟩) ^ 2))
          (Ot i j m).nDraw
          (D_min + (D_max - D_min) * (Ot i j m).u1)
          (gamma_shape_min + (gamma_shape_max - gamma_shape_min) *
            (Ot i j m).u2)
          max_time
          (listMax days_elapsed_min +
            (listMax days_elapsed_max - listMax days_elapsed_min) *
            (Ot i j m).u3)
          max_cases (f_home_grid.get ⟨i, hi⟩) people_per_household
          (max_community_spread_grid.get ⟨j, hj⟩) population
          fuel).2.1.getLastD 0 : ℚ) / population) := by
  simp only [compute, List.getElem?_map, List.getElem?_enum,
    List.getElem?_range hm, List.getElem?_eq_getElem hi,
    List.getElem?_eq_getElem hj, Option.map_some', Option.some_bind,
    Option.bind_some]
  simp only [computeTrial, List.get_eq_getElem]

/-- A concrete trial oracle for witnesses. -/
def OtZero : TrialOracle :=
  { u1 := 0, u2 := 0, u3 := 0, nDraw := 1, sim := SOZero }

/-- Witness for `compute_uses_transformed_dispersion` on singleton grids. -/
theorem compute_uses_transformed_dispersion_witness :
    ((0 : ℕ) < [(1 : ℚ) / 2].length ∧ (0 : ℕ) < [(3 : ℕ)].length ∧
        (0 : ℕ) < 1) ∧
      ((compute (fun _ _ _ => OtZero) [(1 : ℚ) / 2] [(3 : ℕ)] 2 4 1 0 1 50
          1 1 20 [5] [30] 3 10 6)[0]?.bind
          fun a => a[0]?.bind fun b => b[0]?) =
        some (((simulate_outbreak_structured OtZero.sim 2
            (4 * ([(1 : ℚ) / 2].get ⟨0, by norm_num⟩ ^ 2 +
              (1 - [(1 : ℚ) / 2].get ⟨0, by norm_num⟩) ^ 2))
            OtZero.nDraw (0 + (1 - 0) * OtZero.u1)
            (1 + (1 - 1) * OtZero.u2) 20
            (listMax [5] + (listMax [30] - listMax [5]) * OtZero.u3) 50
            ([(1 : ℚ) / 2].get ⟨0, by norm_num⟩) 3
            ([(3 : ℕ)].get ⟨0, by norm_num⟩) 10
            6).2.1.getLastD 0 : ℚ) / (10 : ℕ)) :=
  ⟨⟨by norm_num, by norm_num, by norm_num⟩,
    compute_uses_transformed_dispersion (fun _ _ _ => OtZero)
      [(1 : ℚ) / 2] [(3 : ℕ)] 2 4 1 0 1 50 1 1 20 [5] [30] 3 10 6 0 0 0
      (by norm_num) (by norm_num) (by norm_num)⟩

end Eugene
